import Mathlib

/-
Verification of the Memories agent-memory service.

This file is a shallow embedding of the parts of the repository that the
checked properties are about:

  * the Ranking & Deduplication module (src/utils.py, merge_and_rank_results
    and hash_content) and the cosine-similarity scorer
    (src/utils.py, calculate_relevance_score);
  * the short-term memory handler (src/handlers/shortterm_handler.py);
  * the working memory handler (src/handlers/working_handler.py) together
    with the Redis adapter it uses (src/services/redis.py);
  * the long-term memory handler (src/handlers/longterm_handler.py) together
    with the DynamoDB adapter (src/services/dynamodb.py);
  * the semantic memory handler (src/handlers/semantic_handler.py) together
    with the OpenSearch adapter (src/services/opensearch.py).

Modelling conventions, used throughout:

  * Python dictionaries are modelled by structures whose fields are the keys
    the embedded code reads or writes; a value the code never inspects is
    carried as an uninterpreted String.
  * Python float values are modelled as rationals (every float value is a
    rational number; the embedded code only adds, multiplies, compares), and
    real numbers are used where the source takes square roots.
  * Fallible calls return Except or Option; an uncaught Python exception is
    an Except.error value.
  * Nondeterministic environment inputs (generated uuids, the current time)
    are passed in as arguments.
  * The backing stores (Redis, DynamoDB, OpenSearch) are external services:
    they are modelled as explicit state, a list of the entries the adapters
    wrote, newest first, so that a point read returns the newest value for a
    key, and reads are evaluated against that state.
-/

namespace Memories

/-! ## Ranking and deduplication (src/utils.py, lines 225-254)

merge_and_rank_results consumes a list of result dictionaries.  Only the
keys the function reads are modelled as named fields, each an Option to
mirror dict.get with a default; the rest field stands for every remaining
dictionary entry (id, embedding, metadata, and so on), which the function
never inspects and passes through unchanged. -/

structure Candidate where
  relevance_score : Option ℚ
  timestamp : Option String
  content : Option String
  rest : String
deriving DecidableEq

/-- Python expression result.get("relevance_score", 0), as read on lines 234
and 240 of src/utils.py. -/
def scoreOf (c : Candidate) : ℚ :=
  c.relevance_score.getD 0

/-- Python expression x.get("timestamp", ""), the second component of the
sort key on line 240 of src/utils.py. -/
def tsOf (c : Candidate) : String :=
  c.timestamp.getD ""

/-- Python expression result.get("content", ""), the text that is
fingerprinted for deduplication on line 249 of src/utils.py. -/
def contentOf (c : Candidate) : String :=
  c.content.getD ""

/-- The Python sort key on line 240 of src/utils.py is the tuple
(relevance_score, timestamp); tuples compare lexicographically, so this is
the lexicographic order on (scoreOf, tsOf). -/
def sortKeyLe (a b : Candidate) : Prop :=
  scoreOf a < scoreOf b ∨ (scoreOf a = scoreOf b ∧ tsOf a ≤ tsOf b)

instance (a b : Candidate) : Decidable (sortKeyLe a b) := by
  unfold sortKeyLe
  infer_instance

/-- The comparator realised by sorted(..., key=..., reverse=True) on lines
238-242 of src/utils.py: a may stand before b exactly when the sort key of b
is at most the sort key of a (descending order).  Python's sorted is
specified to be a stable sort, as is List.mergeSort, which the model sorts
with below. -/
def rankLe (a b : Candidate) : Bool :=
  decide (sortKeyLe b a)

/-- The deduplication loop on lines 245-252 of src/utils.py: walk the sorted
list front to back, keep a set (here: a list, queried only for membership)
of the content fingerprints already seen, emit a candidate only when its
fingerprint is new.  fp is the content fingerprint function, hash_content on
lines 38-40 of src/utils.py: hashlib.sha256(content.encode()).hexdigest()
truncated to its first 16 characters.  sha256 is a Python standard-library
primitive, not code of this repository, so the fingerprint is a parameter
here: every property proved below holds for the real sha256-based
fingerprint, and equal contents receive equal fingerprints under any fp. -/
def dedupAux (fp : String → String) : List String → List Candidate → List Candidate
  | _, [] => []
  | seen, c :: rest =>
    if fp (contentOf c) ∈ seen then
      dedupAux fp seen rest
    else
      c :: dedupAux fp (fp (contentOf c) :: seen) rest

/-- merge_and_rank_results (src/utils.py, lines 225-254): filter by the
relevance threshold, sort by (relevance_score, timestamp) descending with a
stable sort, drop every candidate whose content fingerprint was already
seen, truncate to max_results.  The Python defaults are max_results=10 and
relevance_threshold=0.7. -/
def merge_and_rank_results (fp : String → String) (results : List Candidate)
    (max_results : Nat := 10) (relevance_threshold : ℚ := 7/10) : List Candidate :=
  let filtered_results := results.filter (fun r => decide (relevance_threshold ≤ scoreOf r))
  let sorted_results := filtered_results.mergeSort rankLe
  let unique_results := dedupAux fp [] sorted_results
  unique_results.take max_results

theorem merge_and_rank_results_def (fp : String → String) (results : List Candidate)
    (max_results : Nat) (relevance_threshold : ℚ) :
    merge_and_rank_results fp results max_results relevance_threshold =
      (dedupAux fp []
        ((results.filter (fun r => decide (relevance_threshold ≤ scoreOf r))).mergeSort
          rankLe)).take max_results :=
  rfl

theorem rankLe_trans (a b c : Candidate) : rankLe a b → rankLe b c → rankLe a c := by
  simp only [rankLe, decide_eq_true_eq, sortKeyLe]
  rintro (h1 | ⟨h1, h1t⟩) (h2 | ⟨h2, h2t⟩)
  · exact Or.inl (lt_trans h2 h1)
  · exact Or.inl (h2 ▸ h1)
  · exact Or.inl (h1 ▸ h2)
  · exact Or.inr ⟨h2.trans h1, le_trans h2t h1t⟩

theorem rankLe_total (a b : Candidate) : rankLe a b || rankLe b a := by
  simp only [rankLe, decide_eq_true_eq, sortKeyLe, Bool.or_eq_true]
  rcases lt_trichotomy (scoreOf a) (scoreOf b) with h | h | h
  · exact Or.inr (Or.inl h)
  · rcases le_total (tsOf b) (tsOf a) with ht | ht
    · exact Or.inl (Or.inr ⟨h.symm, ht⟩)
    · exact Or.inr (Or.inr ⟨h, ht⟩)
  · exact Or.inl (Or.inl h)

theorem dedupAux_sublist (fp : String → String) (seen : List String)
    (l : List Candidate) : List.Sublist (dedupAux fp seen l) l := by
  induction l generalizing seen with
  | nil => exact List.Sublist.refl []
  | cons c rest ih =>
    rw [dedupAux]
    by_cases h : fp (contentOf c) ∈ seen
    · simp only [h, if_true]
      exact (ih seen).cons c
    · simp only [h, if_false]
      exact (ih (fp (contentOf c) :: seen)).cons₂ c

theorem mem_dedupAux_not_seen (fp : String → String) (seen : List String)
    (l : List Candidate) (c : Candidate) (h : c ∈ dedupAux fp seen l) :
    fp (contentOf c) ∉ seen := by
  induction l generalizing seen with
  | nil => simp [dedupAux] at h
  | cons d rest ih =>
    rw [dedupAux] at h
    by_cases hd : fp (contentOf d) ∈ seen
    · simp only [hd, if_true] at h
      exact ih seen h
    · simp only [hd, if_false, List.mem_cons] at h
      rcases h with rfl | h
      · exact hd
      · have := ih (fp (contentOf d) :: seen) h
        intro hc
        exact this (List.mem_cons_of_mem _ hc)

theorem dedupAux_map_fp_nodup (fp : String → String) (seen : List String)
    (l : List Candidate) :
    ((dedupAux fp seen l).map (fun c => fp (contentOf c))).Nodup := by
  induction l generalizing seen with
  | nil => simp [dedupAux]
  | cons d rest ih =>
    rw [dedupAux]
    by_cases hd : fp (contentOf d) ∈ seen
    · simp only [hd, if_true]
      exact ih seen
    · simp only [hd, if_false, List.map_cons, List.nodup_cons]
      refine ⟨?_, ih (fp (contentOf d) :: seen)⟩
      intro hmem
      rcases List.mem_map.mp hmem with ⟨c, hc, hfc⟩
      exact mem_dedupAux_not_seen fp _ rest c hc (hfc ▸ List.mem_cons_self _ _)

theorem dedupAux_eq_self (fp : String → String) (seen : List String)
    (l : List Candidate) (h1 : (l.map (fun c => fp (contentOf c))).Nodup)
    (h2 : ∀ c ∈ l, fp (contentOf c) ∉ seen) : dedupAux fp seen l = l := by
  induction l generalizing seen with
  | nil => rfl
  | cons d rest ih =>
    rw [dedupAux]
    have hd : fp (contentOf d) ∉ seen := h2 d (List.mem_cons_self _ _)
    simp only [hd, if_false]
    simp only [List.map_cons, List.nodup_cons] at h1
    congr 1
    refine ih (fp (contentOf d) :: seen) h1.2 ?_
    intro c hc hmem
    rcases List.mem_cons.mp hmem with heq | hmem2
    · exact h1.1 (heq ▸ List.mem_map_of_mem _ hc)
    · exact h2 c (List.mem_cons_of_mem _ hc) hmem2

theorem mem_merge_and_rank_filter (fp : String → String) (l : List Candidate)
    (m : Nat) (t : ℚ) (c : Candidate) (hc : c ∈ merge_and_rank_results fp l m t) :
    c ∈ l.filter (fun r => decide (t ≤ scoreOf r)) := by
  rw [merge_and_rank_results_def] at hc
  have h1 := List.take_subset m _ hc
  have h2 := (dedupAux_sublist fp [] _).subset h1
  exact (List.mergeSort_perm _ rankLe).mem_iff.mp h2

theorem merge_and_rank_pairwise (fp : String → String) (l : List Candidate)
    (m : Nat) (t : ℚ) :
    (merge_and_rank_results fp l m t).Pairwise (fun a b : Candidate => rankLe a b) := by
  rw [merge_and_rank_results_def]
  exact (List.sorted_mergeSort rankLe_trans rankLe_total _).sublist
    ((List.take_sublist _ _).trans (dedupAux_sublist fp [] _))

/-- C6: merge_and_rank is idempotent.  For every content-fingerprint
function, candidate list, max_results and relevance_threshold, applying
merge_and_rank_results to its own output, with the same max_results and
threshold, returns that output unchanged: the same elements in the same
order. -/
theorem C6_merge_and_rank_idempotent (fp : String → String) (l : List Candidate)
    (m : Nat) (t : ℚ) :
    merge_and_rank_results fp (merge_and_rank_results fp l m t) m t =
      merge_and_rank_results fp l m t := by
  have hmem : ∀ c ∈ merge_and_rank_results fp l m t, decide (t ≤ scoreOf c) = true := by
    intro c hc
    exact (List.mem_filter.mp (mem_merge_and_rank_filter fp l m t c hc)).2
  have hfilter : (merge_and_rank_results fp l m t).filter
      (fun r => decide (t ≤ scoreOf r)) = merge_and_rank_results fp l m t :=
    List.filter_eq_self.mpr hmem
  have hpair := merge_and_rank_pairwise fp l m t
  have hsort : (merge_and_rank_results fp l m t).mergeSort rankLe =
      merge_and_rank_results fp l m t :=
    List.mergeSort_of_sorted hpair
  have hnodup : ((merge_and_rank_results fp l m t).map
      (fun c => fp (contentOf c))).Nodup := by
    rw [merge_and_rank_results_def]
    exact (dedupAux_map_fp_nodup fp [] _).sublist ((List.take_sublist _ _).map _)
  have hdedup : dedupAux fp [] (merge_and_rank_results fp l m t) =
      merge_and_rank_results fp l m t :=
    dedupAux_eq_self fp [] _ hnodup (by simp)
  have hlen : (merge_and_rank_results fp l m t).length ≤ m := by
    rw [merge_and_rank_results_def]
    exact List.length_take_le _ _
  have htake : (merge_and_rank_results fp l m t).take m =
      merge_and_rank_results fp l m t :=
    List.take_of_length_le hlen
  rw [merge_and_rank_results_def, hfilter, hsort, hdedup, htake]

theorem mem_first_split {α : Type} {a : α} {l : List α} (h : a ∈ l) :
    ∃ s t, l = s ++ a :: t ∧ a ∉ s := by
  induction l with
  | nil => simp at h
  | cons b l ih =>
    by_cases hb : b = a
    · exact ⟨[], l, by simp [hb], by simp⟩
    · have hal : a ∈ l := by
        rcases List.mem_cons.mp h with h1 | h1
        · exact absurd h1.symm hb
        · exact h1
      obtain ⟨s, t, hst, hns⟩ := ih hal
      refine ⟨b :: s, t, by rw [hst, List.cons_append], ?_⟩
      intro hmem
      rcases List.mem_cons.mp hmem with h1 | h1
      · exact hb h1.symm
      · exact hns h1

theorem mem_dedupAux_of_first (fp : String → String) (x : Candidate) :
    ∀ (s : List Candidate) (seen : List String) (t2 : List Candidate),
    fp (contentOf x) ∉ seen →
    (∀ w ∈ s, fp (contentOf w) ≠ fp (contentOf x)) →
    x ∈ dedupAux fp seen (s ++ x :: t2) := by
  intro s
  induction s with
  | nil =>
    intro seen t2 hseen _
    rw [List.nil_append, dedupAux, if_neg hseen]
    exact List.mem_cons_self _ _
  | cons w s ih =>
    intro seen t2 hseen hs
    rw [List.cons_append, dedupAux]
    by_cases hw : fp (contentOf w) ∈ seen
    · rw [if_pos hw]
      exact ih seen t2 hseen (fun v hv => hs v (List.mem_cons_of_mem _ hv))
    · rw [if_neg hw]
      refine List.mem_cons_of_mem _
        (ih _ t2 ?_ (fun v hv => hs v (List.mem_cons_of_mem _ hv)))
      intro hmem
      rcases List.mem_cons.mp hmem with heq | hmem2
      · exact hs w (List.mem_cons_self _ _) heq.symm
      · exact hseen hmem2

/-- C7 (amended): deduplication keeps the best duplicate, under the two side
conditions the counterexample forces.  For every candidate list containing
two candidates x and y with identical textual content, different scores both
at or above the threshold (x the higher), if no further candidate in the
list shares their content fingerprint and no truncation interferes
(max_results at least the list length), then the output of merge_and_rank
contains x, the one that sorts higher under (relevance_score descending,
timestamp descending), and not y: fingerprints are computed in sorted order
and only the first occurrence of each fingerprint is kept. -/
theorem C7_dedup_keeps_best (fp : String → String) (l : List Candidate)
    (m : Nat) (t : ℚ) (x y : Candidate) (hx : x ∈ l) (hy : y ∈ l)
    (hcontent : contentOf x = contentOf y)
    (hty : t ≤ scoreOf y) (hscore : scoreOf y < scoreOf x)
    (honly : ∀ z ∈ l, fp (contentOf z) = fp (contentOf x) → z = x ∨ z = y)
    (hm : l.length ≤ m) :
    x ∈ merge_and_rank_results fp l m t ∧ y ∉ merge_and_rank_results fp l m t := by
  have htx : t ≤ scoreOf x := le_of_lt (lt_of_le_of_lt hty hscore)
  have hxf : x ∈ l.filter (fun r => decide (t ≤ scoreOf r)) :=
    List.mem_filter.mpr ⟨hx, by simpa using htx⟩
  have hxs : x ∈ (l.filter (fun r => decide (t ≤ scoreOf r))).mergeSort rankLe :=
    (List.mergeSort_perm _ rankLe).mem_iff.mpr hxf
  have hp := List.sorted_mergeSort rankLe_trans rankLe_total
    (l.filter (fun r => decide (t ≤ scoreOf r)))
  obtain ⟨s, t2, hsplit, hxnots⟩ := mem_first_split hxs
  have hs : ∀ w ∈ s, fp (contentOf w) ≠ fp (contentOf x) := by
    intro w hw hfw
    have hws : w ∈ (l.filter (fun r => decide (t ≤ scoreOf r))).mergeSort rankLe := by
      rw [hsplit]
      exact List.mem_append_of_mem_left _ hw
    have hwl : w ∈ l :=
      (List.mem_filter.mp ((List.mergeSort_perm _ rankLe).mem_iff.mp hws)).1
    rcases honly w hwl hfw with rfl | rfl
    · exact hxnots hw
    · rw [hsplit] at hp
      have hrel := (List.pairwise_append.mp hp).2.2 w hw x (List.mem_cons_self _ _)
      simp only [rankLe, decide_eq_true_eq, sortKeyLe] at hrel
      rcases hrel with h1 | ⟨h1, _⟩
      · exact absurd h1 (lt_asymm hscore)
      · rw [h1] at hscore
        exact absurd hscore (lt_irrefl _)
  have hxd : x ∈ dedupAux fp []
      ((l.filter (fun r => decide (t ≤ scoreOf r))).mergeSort rankLe) := by
    rw [hsplit]
    exact mem_dedupAux_of_first fp x s [] t2 (by simp) hs
  have hlen : (dedupAux fp []
      ((l.filter (fun r => decide (t ≤ scoreOf r))).mergeSort rankLe)).length ≤ m := by
    refine le_trans (dedupAux_sublist fp [] _).length_le (le_trans ?_ hm)
    rw [(List.mergeSort_perm _ rankLe).length_eq]
    exact List.length_filter_le _ l
  have hmr : merge_and_rank_results fp l m t = dedupAux fp []
      ((l.filter (fun r => decide (t ≤ scoreOf r))).mergeSort rankLe) := by
    rw [merge_and_rank_results_def]
    exact List.take_of_length_le hlen
  constructor
  · rw [hmr]
    exact hxd
  · intro hy2
    rw [hmr] at hy2
    have hnodup := dedupAux_map_fp_nodup fp []
      ((l.filter (fun r => decide (t ≤ scoreOf r))).mergeSort rankLe)
    have heq : x = y :=
      List.inj_on_of_nodup_map hnodup hxd hy2 (congrArg fp hcontent)
    rw [heq] at hscore
    exact absurd hscore (lt_irrefl _)

/-- Identity stand-in for the content fingerprint in the concrete
evaluations below.  Every candidate they involve carries the same content
text, and hash_content maps equal contents to equal fingerprints, so any
function of the content, the sha256-based one included, drives the
deduplication identically on these inputs. -/
def idFingerprint : String → String :=
  fun s => s

/-- Highest-ranked of three semantic-search candidates that share one
content text. -/
def semDupA : Candidate :=
  ⟨some (95/100), some "2024-06-03T00:00:00", some "same text", "sem_a"⟩

/-- Middle-ranked duplicate, distinct id and score. -/
def semDupB : Candidate :=
  ⟨some (9/10), some "2024-06-02T00:00:00", some "same text", "sem_b"⟩

/-- Lowest-ranked duplicate, distinct id and score. -/
def semDupC : Candidate :=
  ⟨some (8/10), some "2024-06-01T00:00:00", some "same text", "sem_c"⟩

/-- C7 (counterexample): the claim says that for EVERY candidate list
containing two candidates with identical content but different ids and
different scores above the threshold, the output contains exactly one of
the two.  With the code defaults max_results=10 and threshold=0.7, the list
[semDupA, semDupB, semDupC] contains such a pair, semDupB and semDupC
(identical content, different ids, different scores, both at or above 0.7),
yet the output of merge_and_rank_results is [semDupA] and contains NEITHER
of them: a third candidate with the same content fingerprint outranks both,
and deduplication keeps only the first occurrence of the fingerprint. -/
theorem C7_counterexample :
    contentOf semDupB = contentOf semDupC ∧ semDupB.rest ≠ semDupC.rest ∧
    scoreOf semDupB ≠ scoreOf semDupC ∧
    (7:ℚ)/10 ≤ scoreOf semDupB ∧ (7:ℚ)/10 ≤ scoreOf semDupC ∧
    merge_and_rank_results idFingerprint [semDupA, semDupB, semDupC] 10 (7/10) = [semDupA] ∧
    semDupB ∉ merge_and_rank_results idFingerprint [semDupA, semDupB, semDupC] 10 (7/10) ∧
    semDupC ∉ merge_and_rank_results idFingerprint [semDupA, semDupB, semDupC] 10 (7/10) := by
  have hfil : List.filter (fun r => decide ((7:ℚ)/10 ≤ scoreOf r))
      [semDupA, semDupB, semDupC] = [semDupA, semDupB, semDupC] := by
    norm_num [List.filter_cons, scoreOf, semDupA, semDupB, semDupC]
  have hpair : List.Pairwise (fun a b : Candidate => rankLe a b)
      [semDupA, semDupB, semDupC] := by
    norm_num [List.pairwise_cons, rankLe, sortKeyLe, scoreOf, semDupA, semDupB, semDupC]
  have hout : merge_and_rank_results idFingerprint
      [semDupA, semDupB, semDupC] 10 (7/10) = [semDupA] := by
    rw [merge_and_rank_results_def, hfil, List.mergeSort_of_sorted hpair]
    simp [dedupAux, idFingerprint, contentOf, semDupA, semDupB, semDupC]
  refine ⟨by norm_num [contentOf, semDupB, semDupC],
    by decide,
    by norm_num [scoreOf, semDupB, semDupC],
    by norm_num [scoreOf, semDupB],
    by norm_num [scoreOf, semDupC],
    hout, ?_, ?_⟩
  · rw [hout]
    norm_num [semDupA, semDupB]
  · rw [hout]
    norm_num [semDupA, semDupC]

/-- Two-candidate instance for the amended C7 theorem: same content,
integer scores 2 and 1, listed with the lower-ranked one first. -/
def dupHigh : Candidate :=
  ⟨some 2, some "2024-06-02T00:00:00", some "duplicated text", "kv_hit"⟩

/-- The lower-scored duplicate of dupHigh. -/
def dupLow : Candidate :=
  ⟨some 1, some "2024-06-01T00:00:00", some "duplicated text", "idx_hit"⟩

/-- C7 (witness): the amended theorem applied at the concrete list
[dupLow, dupHigh] with threshold 0: the higher-scored duplicate is kept and
the lower-scored one is dropped. -/
theorem C7_witness :
    dupHigh ∈ ([dupLow, dupHigh] : List Candidate) ∧
    dupLow ∈ ([dupLow, dupHigh] : List Candidate) ∧
    contentOf dupHigh = contentOf dupLow ∧
    (0:ℚ) ≤ scoreOf dupLow ∧ scoreOf dupLow < scoreOf dupHigh ∧
    ([dupLow, dupHigh] : List Candidate).length ≤ 10 ∧
    (dupHigh ∈ merge_and_rank_results idFingerprint [dupLow, dupHigh] 10 0 ∧
      dupLow ∉ merge_and_rank_results idFingerprint [dupLow, dupHigh] 10 0) :=
  ⟨by decide, by decide, by decide, by decide, by decide, by decide,
    C7_dedup_keeps_best idFingerprint [dupLow, dupHigh] 10 0 dupHigh dupLow
      (by decide) (by decide) (by decide) (by decide) (by decide)
      (by decide) (by decide)⟩

/-! ## Cosine similarity (src/utils.py, lines 207-222) -/

/-- Python expression sum(a * b for a, b in zip(query_embedding,
doc_embedding)) on line 213 of src/utils.py.  Embedding entries are Python
floats, modelled as real numbers. -/
def dot_product (q d : List ℝ) : ℝ :=
  ((q.zip d).map (fun p => p.1 * p.2)).sum

/-- Python expression sum(a * a for a in v) ** 0.5 on lines 216-217 of
src/utils.py: raising a nonnegative float to the power 0.5 takes its
nonnegative square root. -/
noncomputable def magnitudeOf (v : List ℝ) : ℝ :=
  Real.sqrt ((v.map (fun a => a * a)).sum)

open Classical in
/-- calculate_relevance_score (src/utils.py, lines 207-222).  A Python empty
list is falsy, so the first guard returns 0.0 when either vector is empty;
the second guard returns 0.0 when either magnitude is zero; only otherwise
is the division reached. -/
noncomputable def calculate_relevance_score (query_embedding doc_embedding : List ℝ) : ℝ :=
  if query_embedding = [] ∨ doc_embedding = [] then 0
  else if magnitudeOf query_embedding = 0 ∨ magnitudeOf doc_embedding = 0 then 0
  else dot_product query_embedding doc_embedding /
    (magnitudeOf query_embedding * magnitudeOf doc_embedding)

/-- C9: the similarity function is total on the zero case.  For every pair
of vectors, if either vector is empty or has zero magnitude then
calculate_relevance_score returns exactly 0.0; and on every input the
result is either the guarded 0.0 or the quotient taken with a provably
nonzero divisor, so the division branch is reached only when both
magnitudes are nonzero and the function never divides by zero (as a total
Lean function it also cannot raise). -/
theorem C9_similarity_zero_guard (q d : List ℝ) :
    ((q = [] ∨ d = [] ∨ magnitudeOf q = 0 ∨ magnitudeOf d = 0) →
      calculate_relevance_score q d = 0) ∧
    (calculate_relevance_score q d = 0 ∨
      (magnitudeOf q ≠ 0 ∧ magnitudeOf d ≠ 0 ∧
        magnitudeOf q * magnitudeOf d ≠ 0 ∧
        calculate_relevance_score q d =
          dot_product q d / (magnitudeOf q * magnitudeOf d))) := by
  unfold calculate_relevance_score
  by_cases h1 : q = [] ∨ d = []
  · rw [if_pos h1]
    exact ⟨fun _ => rfl, Or.inl rfl⟩
  · rw [if_neg h1]
    by_cases h2 : magnitudeOf q = 0 ∨ magnitudeOf d = 0
    · rw [if_pos h2]
      exact ⟨fun _ => rfl, Or.inl rfl⟩
    · rw [if_neg h2]
      push_neg at h2
      constructor
      · intro hcase
        rcases hcase with hq | hd | hm | hm
        · exact absurd (Or.inl hq) h1
        · exact absurd (Or.inr hd) h1
        · exact absurd hm h2.1
        · exact absurd hm h2.2
      · exact Or.inr ⟨h2.1, h2.2, mul_ne_zero h2.1 h2.2, rfl⟩

/-- C9 (witness): the zero-case theorem applied at the concrete pair of an
empty query vector and the one-entry vector [1]: the result is exactly 0. -/
theorem C9_witness :
    (([] : List ℝ) = [] ∨ ([1] : List ℝ) = [] ∨ magnitudeOf [] = 0 ∨
      magnitudeOf [1] = 0) ∧
    calculate_relevance_score [] [1] = 0 :=
  ⟨Or.inl rfl, (C9_similarity_zero_guard [] [1]).1 (Or.inl rfl)⟩

/-! ## Semantic query parameter clamping
(src/handlers/semantic_handler.py, lines 119-149) -/

/-- Line 127 of src/handlers/semantic_handler.py:
min(max(int(params.get("limit", 10)), 1), 100).  The argument is the
integer parsed from the query-string limit, absent when the caller sent
none. -/
def effectiveLimit (limitParam : Option Int) : Int :=
  min (max (limitParam.getD 10) 1) 100

/-- Line 128 of src/handlers/semantic_handler.py:
min(max(float(params.get("min_score", 0.7)), 0.0), 1.0). -/
def effectiveMinScore (minScoreParam : Option ℚ) : ℚ :=
  min (max (minScoreParam.getD (7/10)) 0) 1

/-- C10: at the semantic GET query interface, whatever limit the caller
supplies, the effective result-size limit used for the search lies in
[1, 100] and defaults to 10 when absent, and the effective min_score lies
in [0, 1] and defaults to 0.7 when absent. -/
theorem C10_semantic_query_clamping :
    effectiveLimit none = 10 ∧ effectiveMinScore none = 7/10 ∧
    (∀ n : Int, 1 ≤ effectiveLimit (some n) ∧ effectiveLimit (some n) ≤ 100) ∧
    (∀ q : ℚ, 0 ≤ effectiveMinScore (some q) ∧ effectiveMinScore (some q) ≤ 1) := by
  refine ⟨by norm_num [effectiveLimit], by norm_num [effectiveMinScore], fun n => ⟨?_, ?_⟩,
    fun q => ⟨?_, ?_⟩⟩
  · exact le_min (le_max_right n 1) (by norm_num)
  · exact min_le_right _ _
  · exact le_min (le_max_right q 0) (by norm_num)
  · exact min_le_right _ _

/-! ## Redis key-pattern matching

The handlers scan Redis with glob patterns built from literal characters
and the * wildcard (the only glob syntax the repository uses).  This is the
standard glob semantics of the Redis KEYS and SCAN commands. -/

def globMatchAux : List Char → List Char → Bool
  | [], s => s.isEmpty
  | '*' :: ps, [] => globMatchAux ps []
  | '*' :: ps, c :: ss => globMatchAux ps (c :: ss) || globMatchAux ('*' :: ps) ss
  | _ :: _, [] => false
  | p :: ps, c :: ss => p == c && globMatchAux ps ss
termination_by p s => p.length + s.length

/-- Whether a Redis key matches a glob pattern of literals and *. -/
def globMatch (pattern s : String) : Bool :=
  globMatchAux pattern.toList s.toList

/-- Python slice keys[:limit] (src/handlers/shortterm_handler.py line 86):
a nonnegative limit takes that many leading elements; a negative limit
drops that many trailing elements. -/
def pySlice {α : Type} (l : List α) (n : Int) : List α :=
  if 0 ≤ n then l.take n.toNat else l.take (l.length - (-n).toNat)

/-! ## Short-term memory handler (src/handlers/shortterm_handler.py)

The ShorttermMemory record (src/models.py, lines 173-182) has exactly the
fields id, content, timestamp, metadata, ttl_seconds and session_id; it
carries no tenant_id field.  content may be a string or a dict in the
source; the claims only move it around, so it is a String here, as is the
metadata dict. -/

structure ShorttermMemory where
  id : String
  content : String
  timestamp : String
  metadata : String
  ttl_seconds : Int
  session_id : String
deriving DecidableEq

/-- One recorded call to RedisAdapter.set (src/services/redis.py, lines
102-112) on the short-term store: the adapter serialises the record and
issues SETEX with ttl_arg when ttl_arg is truthy (nonzero) and a plain SET
otherwise.  What the external Redis server then does with the call is the
store's business; the model records that the call was issued and treats the
newest call for a key as the value a GET returns. -/
structure RedisSetCall where
  key : String
  value : ShorttermMemory
  ttl_arg : Int
deriving DecidableEq

/-- RedisAdapter.get (src/services/redis.py, lines 115-124) against the
recorded state: the newest value set under the key, if any. -/
def redis_get (store : List RedisSetCall) (key : String) : Option ShorttermMemory :=
  (store.find? (fun e => e.key == key)).map (fun e => e.value)

/-- RedisAdapter.scan_keys (src/services/redis.py, lines 134-140): the
distinct keys currently in the store that match the glob pattern.
scan_iter yields already-decoded strings (decode_responses=True), so this
adapter method works. -/
def scan_keys (store : List RedisSetCall) (pattern : String) : List String :=
  ((store.map (fun e => e.key)).dedup).filter (fun k => globMatch pattern k)

/-- RedisAdapter.get_multiple (src/services/redis.py, lines 142-149):
order-preserving, one entry per requested key, absent keys give none. -/
def redis_get_multiple (store : List RedisSetCall) (keys : List String) :
    List (Option ShorttermMemory) :=
  keys.map (fun k => redis_get store k)

/-- The request body of a short-term add (src/handlers/shortterm_handler.py,
lines 31-45): content is required (validate_required_fields treats an
absent key and an explicit null alike, both modelled as none); metadata,
ttl_seconds and session_id are optional with the defaults the handler
supplies. -/
structure ShorttermAddBody where
  content : Option String
  metadata : Option String
  ttl_seconds : Option Int
  session_id : Option String

/-- The response of ShorttermMemoryHandler.add_memory as the claims read
it: the HTTP status code and, on success, the assigned memory id and the
effective ttl_seconds echoed on lines 59-63. -/
structure ShorttermAddResponse where
  statusCode : Nat
  memory_id : Option String
  ttl_seconds : Option Int
  error : Option String
deriving DecidableEq

/-- ShorttermMemoryHandler.add_memory (src/handlers/shortterm_handler.py,
lines 31-63).  newId is the generated stm-prefixed uuid, now the current
timestamp.  Missing content is the only validation; the effective ttl is
body.get("ttl_seconds", 604800) with no further check; the record is set
under the bare memory id, and additionally under
session:{session_id}:{memory_id} when session_id is nonempty (Python
truthiness).  Returns the updated store state and the response. -/
def ShorttermMemoryHandler.add_memory (newId now : String) (body : ShorttermAddBody)
    (store : List RedisSetCall) : List RedisSetCall × ShorttermAddResponse :=
  match body.content with
  | none => (store, ⟨400, none, none, some "Missing required fields: content"⟩)
  | some content =>
    let memory : ShorttermMemory :=
      ⟨newId, content, now, body.metadata.getD "", body.ttl_seconds.getD 604800,
        body.session_id.getD ""⟩
    let store1 := RedisSetCall.mk newId memory memory.ttl_seconds :: store
    let store2 :=
      if memory.session_id ≠ "" then
        RedisSetCall.mk ("session:" ++ memory.session_id ++ ":" ++ newId) memory
          memory.ttl_seconds :: store1
      else
        store1
    (store2, ⟨201, some newId, some memory.ttl_seconds, none⟩)

/-- Query parameters of a short-term get
(src/handlers/shortterm_handler.py, lines 65-69); limit is
int(params.get("limit", 10)). -/
structure ShorttermGetParams where
  memory_id : Option String
  session_id : Option String
  limit : Int

/-- The response of ShorttermMemoryHandler.get_memory: status code, the
returned records and their count. -/
structure ShorttermGetResponse where
  statusCode : Nat
  memories : List ShorttermMemory
  count : Nat
  error : Option String
deriving DecidableEq

/-- ShorttermMemoryHandler.get_memory (src/handlers/shortterm_handler.py,
lines 65-98).  With a memory_id (Python-truthy, so nonempty) the handler
does a bare redis_adapter.get(memory_id) point lookup; otherwise with a
session_id it scans session:{session_id}:* and multi-gets the first limit
keys, dropping absent values.  No tenant identity enters anywhere: the
handler has no tenant parameter, and the records have no tenant field. -/
def ShorttermMemoryHandler.get_memory (params : ShorttermGetParams)
    (store : List RedisSetCall) : ShorttermGetResponse :=
  let memory_id := params.memory_id.getD ""
  let session_id := params.session_id.getD ""
  if memory_id = "" ∧ session_id = "" then
    ⟨400, [], 0, some "Either memory_id or session_id is required"⟩
  else
    let results :=
      if memory_id ≠ "" then
        (redis_get store memory_id).toList
      else
        let keys := scan_keys store ("session:" ++ session_id ++ ":*")
        if keys ≠ [] then
          (redis_get_multiple store (pySlice keys params.limit)).filterMap id
        else
          []
    ⟨200, results, results.length, none⟩

/-! ## Long-term memory handler (src/handlers/longterm_handler.py)

Long-term items live in a DynamoDB table.  The table is modelled as the
list of items put, newest first; DynamoDB query semantics for the equality
conditions the handler builds (Key("entity_id").eq(...) with a
FilterExpression Attr("tenant_id").eq(...)) is the filter below. -/

structure LtItem where
  id : String
  entity_id : String
  summary : String
  metadata : String
  timestamp : String
  tenant_id : String
deriving DecidableEq

/-- DynamoDB attribute projection by name, for the condition expressions
the handler uses (src/handlers/longterm_handler.py, lines 64-69). -/
def LtItem.attr (r : LtItem) (name : String) : Option String :=
  if name = "id" then some r.id
  else if name = "entity_id" then some r.entity_id
  else if name = "summary" then some r.summary
  else if name = "metadata" then some r.metadata
  else if name = "timestamp" then some r.timestamp
  else if name = "tenant_id" then some r.tenant_id
  else none

/-- DynamoDBAdapter.query_items (src/services/dynamodb.py, lines 62-88)
with the equality key condition and optional equality filter expression the
long-term handler passes: the items satisfying both conditions.  (The
source also forwards an ExpressionAttributeValues dict whose placeholder
the boto3 condition objects do not reference; it does not alter which items
satisfy the conditions.) -/
def DynamoDBAdapter.query_items (table : List LtItem) (keyCond : String × String)
    (filterExpr : Option (String × String)) : List LtItem :=
  table.filter (fun r =>
    decide (r.attr keyCond.1 = some keyCond.2) &&
      match filterExpr with
      | none => true
      | some f => decide (r.attr f.1 = some f.2))

/-- The body of a long-term POST as the lambda reads it
(src/handlers/longterm_handler.py, lines 176-200): entity_id and summary
required, metadata and id optional, and a tenant_id the caller may also
put in the payload (the lambda never reads it; it is carried here to state
that fact). -/
structure LtPostBody where
  entity_id : Option String
  summary : Option String
  metadata : Option String
  id : Option String
  tenant_id : Option String

/-- LongTermMemoryResponse as update_memory builds it
(src/handlers/longterm_handler.py, lines 51-58). -/
structure LongTermMemoryResponse where
  memory_id : String
  entity_id : String
  summary : String
  metadata : String
  timestamp : String
  tenant_id : String
deriving DecidableEq

/-- LongTermMemoryHandler.update_memory (src/handlers/longterm_handler.py,
lines 30-58): the persisted item takes its id from the payload id or the
generated ltm uuid, and its tenant_id from self.tenant_id, the value the
handler was constructed with; nothing from the payload can change it.
put_item prepends to the table (DynamoDB overwrites by key; newest first
models that for reads). -/
def LongTermMemoryHandler.update_memory (tenant_id : String) (newId now : String)
    (body : LtPostBody) (entity_id summary : String) (table : List LtItem) :
    List LtItem × LongTermMemoryResponse :=
  let memory_id := (body.id.getD "")
  let memory_id := if memory_id ≠ "" then memory_id else newId
  let item : LtItem :=
    ⟨memory_id, entity_id, summary, body.metadata.getD "", now, tenant_id⟩
  (item :: table,
    ⟨memory_id, entity_id, summary, body.metadata.getD "", now, tenant_id⟩)

/-- LongTermMemoryHandler.get_memory (src/handlers/longterm_handler.py,
lines 60-88): query by entity_id with a tenant_id filter expression, take
the first result if any. -/
def LongTermMemoryHandler.get_memory (tenant_id : String) (entity_id : String)
    (table : List LtItem) : Option LongTermMemoryResponse :=
  let results := DynamoDBAdapter.query_items table ("entity_id", entity_id)
    (some ("tenant_id", tenant_id))
  match results with
  | [] => none
  | r :: _ => some ⟨r.id, r.entity_id, r.summary, r.metadata, r.timestamp, tenant_id⟩

/-- Request headers are a lookup table; headers.get("X-Tenant-ID",
"default_tenant") as on line 141 of src/handlers/longterm_handler.py. -/
def headerTenant (headers : List (String × String)) : String :=
  ((headers.find? (fun h => h.1 == "X-Tenant-ID")).map (fun h => h.2)).getD "default_tenant"

/-- The long-term lambda POST path (src/handlers/longterm_handler.py, lines
126-207): the tenant is always taken from the X-Tenant-ID header (default
default_tenant), the handler is constructed with it, required fields are
checked, then update_memory persists.  Returns the table state and either
the 201 response or an error status. -/
def longterm_lambda_post (headers : List (String × String)) (body : LtPostBody)
    (newId now : String) (table : List LtItem) :
    List LtItem × Nat × Option LongTermMemoryResponse :=
  let tenant_id := headerTenant headers
  match body.entity_id, body.summary with
  | some entity_id, some summary =>
    let r := LongTermMemoryHandler.update_memory tenant_id newId now body entity_id
      summary table
    (r.1, 201, some r.2)
  | _, _ => (table, 400, none)

/-! ## Working memory handler (src/handlers/working_handler.py)

Working memory lives in Redis under composite keys
tenant:{tenant_id}:session:{session_id}:memory:{memory_id}.  The stored
value is the dict of a WorkingMemoryBase (src/models.py, lines 64-70),
whose declared fields are exactly memory_id, content, metadata,
ttl_seconds, timestamp and context. -/

structure WorkingMemoryBase where
  memory_id : String
  content : String
  metadata : String
  ttl_seconds : Int
  timestamp : String
  context : String
deriving DecidableEq

/-- Python attribute access on a WorkingMemoryBase instance, as a pydantic
model: the declared fields resolve to their values and any other name
raises AttributeError.  get_memories reads mem.id (src/
handlers/working_handler.py, line 79), which is not a declared field. -/
def WorkingMemoryBase.getAttr (m : WorkingMemoryBase) (name : String) :
    Except String String :=
  if name = "memory_id" then Except.ok m.memory_id
  else if name = "content" then Except.ok m.content
  else if name = "metadata" then Except.ok m.metadata
  else if name = "timestamp" then Except.ok m.timestamp
  else if name = "context" then Except.ok m.context
  else Except.error ("AttributeError: WorkingMemoryBase object has no attribute " ++ name)

/-- One recorded RedisAdapter.set call on the working-memory store. -/
structure WMSetCall where
  key : String
  value : WorkingMemoryBase
  ttl_arg : Int
deriving DecidableEq

/-- RedisAdapter.get against the recorded working-memory state. -/
def wm_redis_get (store : List WMSetCall) (key : String) : Option WorkingMemoryBase :=
  (store.find? (fun e => e.key == key)).map (fun e => e.value)

/-- The raw key list the Redis client returns for
RedisAdapter.keys(pattern): the distinct stored keys matching the glob.
With decode_responses=True (src/services/redis.py, line 83) these are
already Python str values. -/
def wm_client_keys (store : List WMSetCall) (pattern : String) : List String :=
  ((store.map (fun e => e.key)).dedup).filter (fun k => globMatch pattern k)

/-- Python 3 str has no decode method, so key.decode("utf-8") raises
AttributeError for every key the client returned. -/
def strDecodeUtf8 (s : String) : Except String String :=
  Except.error ("AttributeError: str object has no attribute decode (" ++ s ++ ")")

/-- RedisAdapter.keys (src/services/redis.py, lines 151-157): the method
builds [key.decode("utf-8") for key in self.client.keys(pattern)] inside a
try block whose except path returns [].  The client was constructed with
decode_responses=True, so the keys are already str and every decode call
raises; the comprehension therefore raises as soon as there is at least one
matching key, the exception is swallowed, and the method returns [] in
every case. -/
def RedisAdapter.keys (store : List WMSetCall) (pattern : String) : List String :=
  match (wm_client_keys store pattern).mapM strDecodeUtf8 with
  | Except.ok ks => ks
  | Except.error _ => []

/-- WorkingMemoryCreate (src/models.py, lines 73-78): the validated POST
payload.  data is the dict to store, carried as its JSON text. -/
structure WorkingMemoryCreate where
  session_id : String
  data : String
  metadata : Option String
  ttl_seconds : Option Int
  context : String

/-- WorkingMemoryResponse (src/models.py, lines 81-90) as the handler
builds it. -/
structure WorkingMemoryResponse where
  memory_id : String
  content : String
  timestamp : String
  ttl_seconds : Int
  context : String
  metadata : String
  session_id : String
  tenant_id : String
  data : String
deriving DecidableEq

/-- Python expression memory_data.ttl_seconds or 3600
(src/handlers/working_handler.py, line 42): None and the number 0 are
falsy and fall back to 3600; any other integer, negative ones included, is
kept. -/
def pythonOrInt (v : Option Int) (dflt : Int) : Int :=
  match v with
  | none => dflt
  | some t => if t = 0 then dflt else t

/-- WorkingMemoryHandler.add_memory (src/handlers/working_handler.py, lines
32-66): build the WorkingMemoryBase record (content is
json.dumps(memory_data.data), context is the session id), store it under
tenant:{tenant_id}:session:{session_id}:memory:{memory_id} with the
resolved ttl, and return the response echoing the record.  newId is the
generated wm-prefixed uuid, now the current timestamp. -/
def WorkingMemoryHandler.add_memory (tenant_id : String) (newId now : String)
    (memory_data : WorkingMemoryCreate) (store : List WMSetCall) :
    List WMSetCall × WorkingMemoryResponse :=
  let memory : WorkingMemoryBase :=
    ⟨newId, memory_data.data, memory_data.metadata.getD "",
      pythonOrInt memory_data.ttl_seconds 3600, now, memory_data.session_id⟩
  let redis_key :=
    "tenant:" ++ tenant_id ++ ":session:" ++ memory_data.session_id ++ ":memory:" ++ newId
  let store1 := WMSetCall.mk redis_key memory memory.ttl_seconds :: store
  (store1,
    ⟨memory.memory_id, memory.content, memory.timestamp, memory.ttl_seconds,
      memory.context, memory.metadata, memory_data.session_id, tenant_id,
      memory_data.data⟩)

/-- WorkingMemoryHandler.get_memories (src/handlers/working_handler.py,
lines 68-91): scan tenant:{tenant_id}:session:{session_id}:memory:* (or
with a session wildcard when no session id), take the first limit keys, get
each, and build a response per found record — reading mem.id, an attribute
WorkingMemoryBase does not declare, so any found record raises
AttributeError (modelled as the error branch). -/
def WorkingMemoryHandler.get_memories (tenant_id : String)
    (session_id : Option String) (limit : Nat) (store : List WMSetCall) :
    Except String (List WorkingMemoryResponse) :=
  let pattern :=
    if (session_id.getD "") ≠ "" then
      "tenant:" ++ tenant_id ++ ":session:" ++ session_id.getD "" ++ ":memory:*"
    else
      "tenant:" ++ tenant_id ++ ":session:*:memory:*"
  let keys := (RedisAdapter.keys store pattern).take limit
  keys.foldlM
    (fun acc key =>
      match wm_redis_get store key with
      | none => Except.ok acc
      | some mem =>
        match mem.getAttr "id" with
        | Except.error e => Except.error e
        | Except.ok mid =>
          Except.ok (acc ++
            [⟨mid, mem.content, mem.timestamp, mem.ttl_seconds, mem.context,
              mem.metadata, mem.context, tenant_id, mem.content⟩]))
    []

/-! ## Semantic memory handler (src/handlers/semantic_handler.py) and
OpenSearch adapter (src/services/opensearch.py)

A semantic document as built on lines 99-108 of
src/handlers/semantic_handler.py.  The metadata dict has Option String
values because source_id may be stored as null; it is read through
dictGet, so shadowed duplicate keys are harmless. -/

structure SemanticDoc where
  id : String
  content : String
  embedding : List ℚ
  metadata : List (String × Option String)
  tags : List String
  timestamp : String
  version : Int
  relevance_score : ℚ
deriving DecidableEq

/-- Lookup in a metadata dict: the value under the key, if present
(shadowing entries first). -/
def dictGet (d : List (String × Option String)) (k : String) : Option (Option String) :=
  (d.find? (fun p => p.1 == k)).map (fun p => p.2)

/-- Modelled from the spec: generate_embedding
(src/handlers/semantic_handler.py, lines 41-44) derives a deterministic
768-entry vector from an md5 digest of the text,
int(hexdigest[i mod 32], 16) / 15.0 - 1.0 for i in range(768).  md5 is a
Python standard-library primitive outside src/, so the digest is replaced
by a deterministic stand-in hash of the text; determinism and the fixed
length 768, the properties the spec names, are preserved exactly. -/
def generate_embedding (text : String) : List ℚ :=
  let h := text.toList.foldl (fun acc c => (acc * 31 + c.toNat) % 4294967296) 7
  (List.range 768).map (fun i => (((h + i) % 16 : Nat) : ℚ) / 15 - 1)

/-- The POST body of a semantic add as handle_add_memory reads it
(src/handlers/semantic_handler.py, lines 79-107). -/
structure SemanticAddBody where
  content : Option String
  embedding : Option (List ℚ)
  metadata : List (String × Option String)
  tags : List String
  agent_id : Option String
  tenant_id : Option String
  source_type : Option String
  source_id : Option String

/-- A Lambda event for the semantic POST: the request headers and the
parsed body.  handle_add_memory reads only the body (extract_body(event));
the headers are carried to state that the handler ignores them. -/
structure SemanticEvent where
  headers : List (String × String)
  body : SemanticAddBody

/-- OpenSearchAdapter.add_document (src/services/opensearch.py, lines
75-81): index the document under its id; the model records it, newest
first. -/
def OpenSearchAdapter.add_document (index : List (String × SemanticDoc))
    (doc_id : String) (document : SemanticDoc) : List (String × SemanticDoc) :=
  (doc_id, document) :: index

/-- Line 86 of src/handlers/semantic_handler.py:
body.get("embedding") or generate_embedding(content).  An absent embedding
and an empty list are both falsy and fall back to the generated vector. -/
def resolvedEmbedding (body : SemanticAddBody) (content : String) : List ℚ :=
  match body.embedding with
  | some e => if e = [] then generate_embedding content else e
  | none => generate_embedding content

/-- handle_add_memory (src/handlers/semantic_handler.py, lines 77-115).
Python falsiness: missing or empty content is rejected with 400; an
embedding that is absent or the empty list falls back to
generate_embedding(content); a non-768-length embedding is rejected with
400.  The stored metadata is body metadata updated with agent_id (default
unknown_agent), tenant_id (default default_tenant), source_type (default
unknown) and source_id — the tenant comes from the request BODY; the
event headers are never consulted.  Returns the index state, the status
code and the assigned memory id. -/
def handle_add_memory (newId now : String) (event : SemanticEvent)
    (index : List (String × SemanticDoc)) :
    List (String × SemanticDoc) × Nat × Option String :=
  let body := event.body
  let content := body.content.getD ""
  if content = "" then
    (index, 400, none)
  else
    let embedding := resolvedEmbedding body content
    if embedding.length ≠ 768 then
      (index, 400, none)
    else
      let metadata :=
        [("agent_id", some (body.agent_id.getD "unknown_agent")),
          ("tenant_id", some (body.tenant_id.getD "default_tenant")),
          ("source_type", some (body.source_type.getD "unknown")),
          ("source_id", body.source_id)] ++ body.metadata
      let document : SemanticDoc :=
        ⟨newId, content, embedding, metadata, body.tags, now, 1, 0⟩
      (OpenSearchAdapter.add_document index newId document, 201, some newId)

/-- OpenSearchAdapter.search_vector (src/services/opensearch.py, lines
83-107): issue the script-score query of the given size and min_score
against the external search service (the backend argument: the outcome of
that call), and on success map each hit to its source document with
relevance_score set to the raw score minus 1.0; on ANY exception, log and
return the empty list. -/
def OpenSearchAdapter.search_vector
    (backend : Int → ℚ → Except String (List (SemanticDoc × ℚ)))
    (size : Int) (min_score : ℚ) : List SemanticDoc :=
  match backend size min_score with
  | Except.error _ => []
  | Except.ok hits => hits.map (fun h => { h.1 with relevance_score := h.2 - 1 })

/-- The methods the OpenSearchAdapter class defines
(src/services/opensearch.py, lines 33-124): add_document, search_vector
and search_text.  There is no search_by_vector and no search_by_text. -/
def openSearchAdapterMethods : List String :=
  ["add_document", "search_vector", "search_text"]

/-- Query-string parameters of a semantic GET
(src/handlers/semantic_handler.py, lines 121-130), after int/float
parsing. -/
structure SemanticQueryParams where
  query : Option String
  search_type : Option String
  limit : Option Int
  min_score : Option ℚ
  tenant_id : Option String
  agent_id : Option String

/-- The semantic GET response as the claims read it: status code, count and
results on success (create_response(200, ...) on line 149), or the error
text. -/
structure QueryResponse where
  statusCode : Nat
  count : Nat
  results : List SemanticDoc
  error : Option String
deriving DecidableEq

/-- The keys of the success body built on line 149 of
src/handlers/semantic_handler.py: count and results, nothing else — in
particular no degraded flag. -/
def queryResponseBodyKeys : List String :=
  ["count", "results"]

/-- handle_query_memory (src/handlers/semantic_handler.py, lines 119-149).
A missing or empty query is answered 400.  The effective limit and
min_score are the clamped values (lines 127-128).  The vector branch then
invokes adapter.search_by_vector and the text branch adapter.search_by_text
— neither is a method the OpenSearchAdapter class defines, so Python
attribute lookup raises AttributeError before any search is issued; the
branch guarded by the (always failing) method lookup shows the call that
would be made.  An unknown search_type is answered 400. -/
def handle_query_memory (params : SemanticQueryParams)
    (backend : Int → ℚ → Except String (List (SemanticDoc × ℚ))) :
    Except String QueryResponse :=
  let query := params.query.getD ""
  if query = "" then
    Except.ok ⟨400, 0, [], some "Query parameter is required"⟩
  else
    let search_type := params.search_type.getD "vector"
    let limit := effectiveLimit params.limit
    let min_score := effectiveMinScore params.min_score
    if search_type = "vector" then
      if "search_by_vector" ∈ openSearchAdapterMethods then
        let results := OpenSearchAdapter.search_vector backend limit min_score
        Except.ok ⟨200, results.length, results, none⟩
      else
        Except.error
          "AttributeError: OpenSearchAdapter object has no attribute search_by_vector"
    else if search_type = "text" then
      Except.error
        "AttributeError: OpenSearchAdapter object has no attribute search_by_text"
    else
      Except.ok ⟨400, 0, [], some "Invalid search_type. Use vector or text"⟩

/-- The semantic lambda_handler GET path
(src/handlers/semantic_handler.py, lines 48-73): delegate to
handle_query_memory; any uncaught exception is answered with
create_error_response(500, "Internal server error"). -/
def semantic_lambda_get (params : SemanticQueryParams)
    (backend : Int → ℚ → Except String (List (SemanticDoc × ℚ))) : QueryResponse :=
  match handle_query_memory params backend with
  | Except.ok r => r
  | Except.error _ => ⟨500, 0, [], some "Internal server error"⟩

/-! ## Claim C1: tenant isolation on point lookups -/

/-- The store state after a short-term write performed on behalf of tenant
A.  The short-term add interface (src/handlers/shortterm_handler.py, lines
31-63) has no tenant input of any kind, and the stored ShorttermMemory
record has no tenant_id field. -/
def shorttermStoreOfA : List RedisSetCall :=
  (ShorttermMemoryHandler.add_memory "stm_a1" "2024-06-01T00:00:00"
    ⟨some "tenant A private note", none, none, none⟩ []).1

/-- C1 (counterexample): a record written under tenant A IS returned by a
read that tenant B issues with A's raw memory id.  The short-term point
lookup (src/handlers/shortterm_handler.py, lines 74-79) is a bare Redis
get: the handler takes no tenant identity, the record carries no
tenant_id, and the lookup answers 200 with A's record to any requester —
so it cannot return only records whose tenant_id equals the requester's
resolved tenant. -/
theorem C1_counterexample :
    (ShorttermMemoryHandler.get_memory ⟨some "stm_a1", none, 10⟩
      shorttermStoreOfA).statusCode = 200 ∧
    (ShorttermMemoryHandler.get_memory ⟨some "stm_a1", none, 10⟩
      shorttermStoreOfA).memories =
      [⟨"stm_a1", "tenant A private note", "2024-06-01T00:00:00", "", 604800, ""⟩] := by
  constructor <;> rfl

/-- C1 (amended): long-term retrieval by entity_id is tenant-scoped — every
item the DynamoDB query returns under the handler's tenant filter
(src/handlers/longterm_handler.py, lines 60-88) carries the requester's
tenant_id — but short-term retrieval by memory_id is an unscoped point
lookup: the handler takes no tenant identity, short-term records carry no
tenant_id, and the response is exactly the newest record stored under the
supplied raw id, whoever stored it and whoever asks. -/
theorem C1_tenant_scoping (table : List LtItem) (tenant entity : String)
    (store : List RedisSetCall) (mid : String) (r : LtItem)
    (hr : r ∈ DynamoDBAdapter.query_items table ("entity_id", entity)
      (some ("tenant_id", tenant)))
    (hmid : mid ≠ "") :
    r.tenant_id = tenant ∧
    (ShorttermMemoryHandler.get_memory ⟨some mid, none, 10⟩ store).memories =
      (redis_get store mid).toList := by
  constructor
  · have h := (List.mem_filter.mp hr).2
    simp only [Bool.and_eq_true, decide_eq_true_eq] at h
    have h2 := h.2
    simp only [LtItem.attr] at h2
    rw [if_neg (by decide), if_neg (by decide), if_neg (by decide), if_neg (by decide),
      if_neg (by decide)] at h2
    exact Option.some_injective _ h2
  · unfold ShorttermMemoryHandler.get_memory
    simp [hmid]

/-- C1 (witness): the amended theorem applied to a one-item long-term table
of tenantA and to the short-term store above. -/
theorem C1_witness :
    (⟨"ltm_1", "user-1", "likes jazz", "", "2024-06-01", "tenantA"⟩ : LtItem) ∈
      DynamoDBAdapter.query_items
        [⟨"ltm_1", "user-1", "likes jazz", "", "2024-06-01", "tenantA"⟩]
        ("entity_id", "user-1") (some ("tenant_id", "tenantA")) ∧
    ("stm_a1" : String) ≠ "" ∧
    ((⟨"ltm_1", "user-1", "likes jazz", "", "2024-06-01", "tenantA"⟩ : LtItem).tenant_id =
        "tenantA" ∧
      (ShorttermMemoryHandler.get_memory ⟨some "stm_a1", none, 10⟩
        shorttermStoreOfA).memories = (redis_get shorttermStoreOfA "stm_a1").toList) :=
  ⟨by decide, by decide,
    C1_tenant_scoping
      [⟨"ltm_1", "user-1", "likes jazz", "", "2024-06-01", "tenantA"⟩]
      "tenantA" "user-1" shorttermStoreOfA "stm_a1"
      ⟨"ltm_1", "user-1", "likes jazz", "", "2024-06-01", "tenantA"⟩
      (by decide) (by decide)⟩

/-! ## Claim C2: working-memory round trip -/

theorem redisKeys_always_nil (store : List WMSetCall) (pattern : String) :
    RedisAdapter.keys store pattern = [] := by
  unfold RedisAdapter.keys
  cases hl : wm_client_keys store pattern with
  | nil => rfl
  | cons a as => rfl

theorem get_memories_always_empty (tenant_id : String) (session_id : Option String)
    (limit : Nat) (store : List WMSetCall) :
    WorkingMemoryHandler.get_memories tenant_id session_id limit store =
      Except.ok [] := by
  unfold WorkingMemoryHandler.get_memories
  simp only [redisKeys_always_nil, List.take_nil]
  rfl

/-- C2: the write half of the round trip holds — a working-memory write
with tenant tenantA and session s1 is stored under the composite key
tenant:tenantA:session:s1:memory:wm_1 — but the read half fails: a get
scoped to the same tenant and session returns the empty list, never the
stored record, because RedisAdapter.keys calls decode("utf-8") on keys the
client already decoded (decode_responses=True) and swallows the resulting
AttributeError into []; and even if keys were returned, building the
response reads mem.id, an attribute the WorkingMemoryBase model does not
declare (its field is memory_id), which raises AttributeError. -/
theorem C2_roundtrip_code_bug :
    (WorkingMemoryHandler.add_memory "tenantA" "wm_1" "2024-06-01T00:00:00"
        ⟨"s1", "session working data", none, none, ""⟩ []).1 =
      [⟨"tenant:tenantA:session:s1:memory:wm_1",
        ⟨"wm_1", "session working data", "", 3600, "2024-06-01T00:00:00", "s1"⟩,
        3600⟩] ∧
    WorkingMemoryHandler.get_memories "tenantA" (some "s1") 10
        (WorkingMemoryHandler.add_memory "tenantA" "wm_1" "2024-06-01T00:00:00"
          ⟨"s1", "session working data", none, none, ""⟩ []).1 = Except.ok [] ∧
    (⟨"wm_1", "session working data", "", 3600, "2024-06-01T00:00:00",
        "s1"⟩ : WorkingMemoryBase).getAttr "id" =
      Except.error
        "AttributeError: WorkingMemoryBase object has no attribute id" :=
  ⟨rfl, get_memories_always_empty "tenantA" (some "s1") 10 _, rfl⟩

/-! ## Claim C3: tenant stamping on writes -/

/-- C3 (amended): on the long-term write path the header/context-derived
tenant wins unconditionally — every newly persisted long-term item carries
headerTenant headers, whatever tenant_id the payload suggested — but on
the semantic lambda write path the header is never consulted: the newly
persisted document carries the PAYLOAD tenant_id (default default_tenant)
in its metadata, whatever the X-Tenant-ID header said. -/
theorem C3_tenant_stamping (headers : List (String × String)) (body : LtPostBody)
    (newId now : String) (table : List LtItem) (item : LtItem)
    (newId2 now2 : String) (event : SemanticEvent)
    (index : List (String × SemanticDoc)) (p : String × SemanticDoc)
    (hitem : item ∈ (longterm_lambda_post headers body newId now table).1)
    (hitemNew : item ∉ table)
    (hp : p ∈ (handle_add_memory newId2 now2 event index).1)
    (hpNew : p ∉ index) :
    item.tenant_id = headerTenant headers ∧
    dictGet p.2.metadata "tenant_id" =
      some (some (event.body.tenant_id.getD "default_tenant")) := by
  constructor
  · unfold longterm_lambda_post at hitem
    cases he : body.entity_id with
    | none =>
      rw [he] at hitem
      exact absurd hitem hitemNew
    | some e =>
      cases hs : body.summary with
      | none =>
        rw [he, hs] at hitem
        exact absurd hitem hitemNew
      | some s =>
        rw [he, hs] at hitem
        simp only [LongTermMemoryHandler.update_memory, List.mem_cons] at hitem
        rcases hitem with rfl | hmem
        · rfl
        · exact absurd hmem hitemNew
  · unfold handle_add_memory at hp
    dsimp only at hp
    split at hp
    · exact absurd hp hpNew
    · split at hp
      · exact absurd hp hpNew
      · simp only [OpenSearchAdapter.add_document, List.mem_cons] at hp
        rcases hp with rfl | hmem
        · simp [dictGet, List.find?]
        · exact absurd hmem hpNew

/-- A semantic POST event whose header names tenantA while the payload
names tenantB, with an explicit valid 768-length embedding. -/
def semEventAB : SemanticEvent :=
  ⟨[("X-Tenant-ID", "tenantA")],
    ⟨some "a fact about the user", some (List.replicate 768 0), [], [], none,
      some "tenantB", none, none⟩⟩

set_option maxRecDepth 8000 in
/-- C3 (counterexample): a semantic write where both a header-derived
tenant (X-Tenant-ID: tenantA) and a payload tenant_id (tenantB) are
present persists tenantB, the payload value — not the header value — so
the persisted tenant_id does not equal the header/context-derived tenant. -/
theorem C3_counterexample :
    headerTenant semEventAB.headers = "tenantA" ∧
    semEventAB.body.tenant_id = some "tenantB" ∧
    (handle_add_memory "sem_1" "2024-06-01T00:00:00" semEventAB []).2.1 = 201 ∧
    ((handle_add_memory "sem_1" "2024-06-01T00:00:00" semEventAB []).1.map
      (fun q => dictGet q.2.metadata "tenant_id")) = [some (some "tenantB")] ∧
    ("tenantB" : String) ≠ "tenantA" := by
  refine ⟨rfl, rfl, ?_, ?_, by decide⟩ <;> rfl

/-- The long-term item the witness write persists: its tenant_id is the
header tenant tenantH, not the payload tenant tenantP. -/
def ltWitnessItem : LtItem :=
  ⟨"ltm_w1", "user-2", "profile summary", "", "2024-06-02T00:00:00", "tenantH"⟩

/-- The semantic document the witness write persists. -/
def semWitnessDoc : String × SemanticDoc :=
  ("sem_1",
    ⟨"sem_1", "a fact about the user", List.replicate 768 0,
      [("agent_id", some "unknown_agent"), ("tenant_id", some "tenantB"),
        ("source_type", some "unknown"), ("source_id", none)],
      [], "2024-06-01T00:00:00", 1, 0⟩)

set_option maxRecDepth 8000 in
/-- C3 (witness): the amended theorem applied to a concrete long-term POST
carrying header tenantH and payload tenant tenantP, and to the concrete
semantic event above. -/
theorem C3_witness :
    ltWitnessItem ∈ (longterm_lambda_post [("X-Tenant-ID", "tenantH")]
      ⟨some "user-2", some "profile summary", none, some "ltm_w1", some "tenantP"⟩
      "ltm_gen" "2024-06-02T00:00:00" []).1 ∧
    ltWitnessItem ∉ ([] : List LtItem) ∧
    semWitnessDoc ∈ (handle_add_memory "sem_1" "2024-06-01T00:00:00" semEventAB []).1 ∧
    semWitnessDoc ∉ ([] : List (String × SemanticDoc)) ∧
    (ltWitnessItem.tenant_id = headerTenant [("X-Tenant-ID", "tenantH")] ∧
      dictGet semWitnessDoc.2.metadata "tenant_id" =
        some (some (semEventAB.body.tenant_id.getD "default_tenant"))) :=
  ⟨by decide, by decide, by decide, by decide,
    C3_tenant_stamping [("X-Tenant-ID", "tenantH")]
      ⟨some "user-2", some "profile summary", none, some "ltm_w1", some "tenantP"⟩
      "ltm_gen" "2024-06-02T00:00:00" [] ltWitnessItem
      "sem_1" "2024-06-01T00:00:00" semEventAB [] semWitnessDoc
      (by decide) (by decide) (by decide) (by decide)⟩

/-! ## Claims C4 and C5: TTL validation and defaulting -/

/-- C4 (counterexample): a short-term write supplying ttl_seconds = -5 is
not rejected: no ValidationError is raised, the write is answered 201, and
a store call IS made carrying the non-positive TTL -5 on the persisted
record — contradicting rejection before any store call. -/
theorem C4_counterexample :
    (ShorttermMemoryHandler.add_memory "stm_n1" "2024-06-01T00:00:00"
      ⟨some "a note", none, some (-5), none⟩ []).2.statusCode = 201 ∧
    (ShorttermMemoryHandler.add_memory "stm_n1" "2024-06-01T00:00:00"
      ⟨some "a note", none, some (-5), none⟩ []).1 =
      [⟨"stm_n1", ⟨"stm_n1", "a note", "2024-06-01T00:00:00", "", -5, ""⟩, -5⟩] := by
  constructor <;> rfl

/-- C4 (amended): no write path validates ttl_seconds.  A short-term write
passes any supplied ttl_seconds — zero or negative included — straight
through to the store call and answers 201; a working-memory write replaces
a supplied ttl of 0 by the 3600 default (Python or-falsiness) and passes
any nonzero value, negative ones included, straight through.  No
ValidationError exists on either path. -/
theorem C4_no_ttl_validation (newId wmId now content data sid tenant : String)
    (ttl : Int) (store : List RedisSetCall) (wstore : List WMSetCall) :
    ((ShorttermMemoryHandler.add_memory newId now ⟨some content, none, some ttl, none⟩
        store).2.statusCode = 201 ∧
      (ShorttermMemoryHandler.add_memory newId now ⟨some content, none, some ttl, none⟩
        store).1 =
        RedisSetCall.mk newId ⟨newId, content, now, "", ttl, ""⟩ ttl :: store) ∧
    ((WorkingMemoryHandler.add_memory tenant wmId now ⟨sid, data, none, some 0, ""⟩
        wstore).1 =
      WMSetCall.mk ("tenant:" ++ tenant ++ ":session:" ++ sid ++ ":memory:" ++ wmId)
        ⟨wmId, data, "", 3600, now, sid⟩ 3600 :: wstore) ∧
    (ttl ≠ 0 →
      (WorkingMemoryHandler.add_memory tenant wmId now ⟨sid, data, none, some ttl, ""⟩
        wstore).1 =
        WMSetCall.mk ("tenant:" ++ tenant ++ ":session:" ++ sid ++ ":memory:" ++ wmId)
          ⟨wmId, data, "", ttl, now, sid⟩ ttl :: wstore) := by
  refine ⟨⟨rfl, ?_⟩, rfl, ?_⟩
  · unfold ShorttermMemoryHandler.add_memory
    simp
  · intro httl
    unfold WorkingMemoryHandler.add_memory
    simp [pythonOrInt, httl]

/-- C4 (witness): the amended theorem applied at ttl = -5 with concrete
ids, contents and empty stores. -/
theorem C4_witness :
    ((-5 : Int) ≠ 0) ∧
    (((ShorttermMemoryHandler.add_memory "stm_n1" "t0"
        ⟨some "a note", none, some (-5), none⟩ []).2.statusCode = 201 ∧
      (ShorttermMemoryHandler.add_memory "stm_n1" "t0"
        ⟨some "a note", none, some (-5), none⟩ []).1 =
        RedisSetCall.mk "stm_n1" ⟨"stm_n1", "a note", "t0", "", -5, ""⟩ (-5) :: []) ∧
    ((WorkingMemoryHandler.add_memory "tenantA" "wm_9" "t0"
        ⟨"s1", "d", none, some 0, ""⟩ []).1 =
      WMSetCall.mk ("tenant:" ++ "tenantA" ++ ":session:" ++ "s1" ++ ":memory:" ++ "wm_9")
        ⟨"wm_9", "d", "", 3600, "t0", "s1"⟩ 3600 :: []) ∧
    ((-5 : Int) ≠ 0 →
      (WorkingMemoryHandler.add_memory "tenantA" "wm_9" "t0"
        ⟨"s1", "d", none, some (-5), ""⟩ []).1 =
        WMSetCall.mk ("tenant:" ++ "tenantA" ++ ":session:" ++ "s1" ++ ":memory:" ++ "wm_9")
          ⟨"wm_9", "d", "", -5, "t0", "s1"⟩ (-5) :: [])) :=
  ⟨by decide, C4_no_ttl_validation "stm_n1" "wm_9" "t0" "a note" "d" "s1" "tenantA" (-5) [] []⟩

/-- C5: TTL defaulting.  A working-memory write with no explicit
ttl_seconds resolves to an effective TTL of 3600; a short-term write with
no explicit ttl_seconds resolves to 604800; and whenever an explicit
positive ttl_seconds is supplied, both the persisted record and the
returned effective TTL equal the supplied value. -/
theorem C5_ttl_defaulting (newId wmId now content data sid tenant : String)
    (store : List RedisSetCall) (wstore : List WMSetCall) :
    ((ShorttermMemoryHandler.add_memory newId now ⟨some content, none, none, none⟩
        store).2.ttl_seconds = some 604800 ∧
      (ShorttermMemoryHandler.add_memory newId now ⟨some content, none, none, none⟩
        store).1 =
        RedisSetCall.mk newId ⟨newId, content, now, "", 604800, ""⟩ 604800 :: store) ∧
    ((WorkingMemoryHandler.add_memory tenant wmId now ⟨sid, data, none, none, ""⟩
        wstore).2.ttl_seconds = 3600 ∧
      (WorkingMemoryHandler.add_memory tenant wmId now ⟨sid, data, none, none, ""⟩
        wstore).1 =
        WMSetCall.mk ("tenant:" ++ tenant ++ ":session:" ++ sid ++ ":memory:" ++ wmId)
          ⟨wmId, data, "", 3600, now, sid⟩ 3600 :: wstore) ∧
    (∀ ttl : Int, 0 < ttl →
      (ShorttermMemoryHandler.add_memory newId now ⟨some content, none, some ttl, none⟩
          store).2.ttl_seconds = some ttl ∧
        (ShorttermMemoryHandler.add_memory newId now ⟨some content, none, some ttl, none⟩
          store).1 =
          RedisSetCall.mk newId ⟨newId, content, now, "", ttl, ""⟩ ttl :: store ∧
      (WorkingMemoryHandler.add_memory tenant wmId now ⟨sid, data, none, some ttl, ""⟩
          wstore).2.ttl_seconds = ttl) := by
  refine ⟨⟨rfl, ?_⟩, ⟨rfl, rfl⟩, ?_⟩
  · unfold ShorttermMemoryHandler.add_memory
    simp
  · intro ttl httl
    have hne : ttl ≠ 0 := ne_of_gt httl
    refine ⟨rfl, ?_, ?_⟩
    · unfold ShorttermMemoryHandler.add_memory
      simp
    · unfold WorkingMemoryHandler.add_memory
      simp [pythonOrInt, hne]

/-- C5 (witness): the defaulting theorem applied at concrete inputs with
the explicit positive override 42. -/
theorem C5_witness :
    (0 : Int) < 42 ∧
    ((ShorttermMemoryHandler.add_memory "stm_w" "t0" ⟨some "c", none, none, none⟩
        []).2.ttl_seconds = some 604800 ∧
      (ShorttermMemoryHandler.add_memory "stm_w" "t0" ⟨some "c", none, none, none⟩
        []).1 = RedisSetCall.mk "stm_w" ⟨"stm_w", "c", "t0", "", 604800, ""⟩ 604800 :: []) ∧
    ((WorkingMemoryHandler.add_memory "tenantA" "wm_w" "t0" ⟨"s1", "d", none, none, ""⟩
        []).2.ttl_seconds = 3600 ∧
      (WorkingMemoryHandler.add_memory "tenantA" "wm_w" "t0" ⟨"s1", "d", none, none, ""⟩
        []).1 =
        WMSetCall.mk ("tenant:" ++ "tenantA" ++ ":session:" ++ "s1" ++ ":memory:" ++ "wm_w")
          ⟨"wm_w", "d", "", 3600, "t0", "s1"⟩ 3600 :: []) ∧
    ((ShorttermMemoryHandler.add_memory "stm_w" "t0" ⟨some "c", none, some 42, none⟩
        []).2.ttl_seconds = some 42 ∧
      (ShorttermMemoryHandler.add_memory "stm_w" "t0" ⟨some "c", none, some 42, none⟩
        []).1 = RedisSetCall.mk "stm_w" ⟨"stm_w", "c", "t0", "", 42, ""⟩ 42 :: [] ∧
      (WorkingMemoryHandler.add_memory "tenantA" "wm_w" "t0" ⟨"s1", "d", none, some 42, ""⟩
        []).2.ttl_seconds = 42) :=
  ⟨by decide,
    (C5_ttl_defaulting "stm_w" "wm_w" "t0" "c" "d" "s1" "tenantA" [] []).1,
    (C5_ttl_defaulting "stm_w" "wm_w" "t0" "c" "d" "s1" "tenantA" [] []).2.1,
    (C5_ttl_defaulting "stm_w" "wm_w" "t0" "c" "d" "s1" "tenantA" [] []).2.2 42 (by decide)⟩

/-! ## Claim C8: degraded fan-out -/

/-- The semantic GET query tenant B of the scenario issues: a plain vector
query with all parameters defaulted. -/
def vectorQueryParams : SemanticQueryParams :=
  ⟨some "find my notes", none, none, none, none, none⟩

/-- A search backend whose every call fails: the search-index tier is
unreachable. -/
def failingBackend : Int → ℚ → Except String (List (SemanticDoc × ℚ)) :=
  fun _ _ => Except.error "ConnectionError: search index unreachable"

/-- C8 (counterexample): with the search-index tier unreachable, the
combined query is NOT answered with key-value-tier matches and a degraded
flag: the semantic GET is surfaced as a hard 500 error (the handler calls
search_by_vector, which the adapter does not define), and the success body
shape has no degraded key at all. -/
theorem C8_counterexample :
    semantic_lambda_get vectorQueryParams failingBackend =
      ⟨500, 0, [], some "Internal server error"⟩ ∧
    "degraded" ∉ queryResponseBodyKeys := by
  constructor
  · rfl
  · decide

/-- C8 (amended): the degradation the spec describes exists only inside
the adapter: when the backend search call fails,
OpenSearchAdapter.search_vector swallows the exception and returns the
empty list rather than raising.  But the query handler invokes
search_by_vector, a method the OpenSearchAdapter class does not define, so
every semantic vector query — with a healthy backend or a failing one —
is surfaced as a hard 500 error; no response carries a degraded flag, and
no code path combines key-value-tier matches with search-index results. -/
theorem C8_degraded_fanout (e : String) (size : Int) (ms : ℚ)
    (params : SemanticQueryParams)
    (backend : Int → ℚ → Except String (List (SemanticDoc × ℚ)))
    (hq : params.query.getD "" ≠ "")
    (hst : params.search_type.getD "vector" = "vector") :
    OpenSearchAdapter.search_vector (fun _ _ => Except.error e) size ms = [] ∧
    semantic_lambda_get params backend = ⟨500, 0, [], some "Internal server error"⟩ ∧
    "degraded" ∉ queryResponseBodyKeys := by
  refine ⟨rfl, ?_, by decide⟩
  unfold semantic_lambda_get handle_query_memory
  dsimp only
  rw [if_neg hq, hst]
  simp [openSearchAdapterMethods]

/-- C8 (witness): the amended theorem applied to the concrete failing
backend and the concrete vector query. -/
theorem C8_witness :
    (vectorQueryParams.query.getD "" ≠ "") ∧
    (vectorQueryParams.search_type.getD "vector" = "vector") ∧
    (OpenSearchAdapter.search_vector
        (fun _ _ => Except.error "ConnectionError: search index unreachable") 10 (7/10) =
        [] ∧
      semantic_lambda_get vectorQueryParams failingBackend =
        ⟨500, 0, [], some "Internal server error"⟩ ∧
      "degraded" ∉ queryResponseBodyKeys) :=
  ⟨by decide, by decide,
    C8_degraded_fanout "ConnectionError: search index unreachable" 10 (7/10)
      vectorQueryParams failingBackend (by decide) (by decide)⟩
